import Mathlib

/-!
Verification development for the task-manager coordination core.

Shallow embedding of the Python sources:
  - src/models/task.py        (TaskState, TaskStatus, SubTaskConfig)
  - src/core/config.py        (Settings)
  - src/core/task_manager.py  (TaskManager: submit_subtasks, get_task_status,
                               wait_for_task, cleanup_task)
  - src/utils/storage.py      (get_task_dir, cleanup_task_dir)
  - examples/image_super_resolution.py (category-based GPU routing)

Modelling conventions:
  - Python values stored in the result backend are modelled by `PyVal`.
  - Timestamps and durations are integer seconds (`Int`); an ISO-format
    timestamp string in a stored envelope is modelled directly as the
    instant it denotes (`PyVal.num`). The ordering facts the claims state
    are insensitive to this choice of time domain.
  - Side effects (queue revocation, admin notification, enqueuing) are
    returned as explicit event lists.
  - Fallible Python code (a raising constructor, an uncaught exception)
    is modelled with `Except String`.
-/

namespace TaskMgr

/-- Task state enumeration, from `TaskState` in src/models/task.py. -/
inductive TaskState where
  | PENDING
  | RECEIVED
  | STARTED
  | SUCCESS
  | FAILURE
  | TIMEOUT
  | REVOKED
  deriving DecidableEq, Repr

/-- Decode of a raw backend state string into `TaskState`, modelling the
Python enum constructor call `TaskState(result.state)`: it succeeds exactly
on the seven enumerated values and raises `ValueError` (here: `none`)
on anything else. -/
def TaskState.ofString (s : String) : Option TaskState :=
  if s = "PENDING" then some .PENDING
  else if s = "RECEIVED" then some .RECEIVED
  else if s = "STARTED" then some .STARTED
  else if s = "SUCCESS" then some .SUCCESS
  else if s = "FAILURE" then some .FAILURE
  else if s = "TIMEOUT" then some .TIMEOUT
  else if s = "REVOKED" then some .REVOKED
  else none

/-- Model of a Python value as stored in the result backend
(the `result` / `info` field of an `AsyncResult`). Timestamps are
modelled as integer instants (`num`). -/
inductive PyVal where
  | none_
  | str (s : String)
  | num (q : Int)
  | dict (entries : List (String × PyVal))
  deriving Repr

/-- Python `task_info["submitted_at"]`-style guarded lookup:
`isinstance(task_info, dict) and key in task_info` followed by the access.
Returns `none` when the value is not a dict or lacks the key. -/
def pyDictGet (v : PyVal) (key : String) : Option PyVal :=
  match v with
  | .dict entries => entries.lookup key
  | _ => none

/-- Model of Python `str(x)`, used only for `str(result.info)`. The exact
rendering of non-string values is irrelevant to every claim. -/
def pyStr (v : PyVal) : String :=
  match v with
  | .none_ => "None"
  | .str s => s
  | .num q => toString q
  | .dict _ => "<dict>"

/-- `TaskStatus` pydantic model from src/models/task.py. -/
structure TaskStatus where
  task_id : String
  state : TaskState
  progress : Option Int := none
  result : Option PyVal := none
  error : Option String := none
  submitted_at : Option Int := none
  started_at : Option Int := none
  completed_at : Option Int := none
  subtasks : List String := []

/-- The fields of `Settings` (src/core/config.py) that the coordination
core reads, with their source-code default values. `task_queue_timeout`
is the int `30` in the source, in seconds, and compares directly with
wait times. -/
structure Settings where
  task_default_timeout : Int := 300
  task_queue_timeout : Int := 30
  queue_gpu_general : String := "gpu-general"
  queue_gpu_portrait : String := "gpu-portrait"
  queue_gpu_landscape : String := "gpu-landscape"
  shared_tmp_path : String := "/tmp/shared/tasks"
  deriving DecidableEq, Repr

/-- The module-level `settings = Settings()` instance with source defaults. -/
def defaultSettings : Settings := {}

/-- The view of one task held by the external result store, as read through
`AsyncResult(task_id, app=celery_app)`: the raw state string and the
`result` / `info` payload (Celery's `info` is an alias of `result`). -/
structure BackendRecord where
  state : String
  info : PyVal

/-- Celery `AsyncResult.successful()`: true exactly when the backend state
is `SUCCESS`. -/
def celerySuccessful (rawState : String) : Bool :=
  rawState = "SUCCESS"

/-- Celery `AsyncResult.failed()`: true exactly when the backend state is
`FAILURE` (it does not cover `REVOKED` or any other state). -/
def celeryFailed (rawState : String) : Bool :=
  rawState = "FAILURE"

/-- Observable side effects of `get_task_status`. -/
inductive Effect where
  | revoke (task_id : String) (terminate : Bool)
  | notifyTimeout (task_id : String) (wait_time : Int)
  deriving DecidableEq, Repr

/-- The timeout error message set by the queue-wait reclassification,
`f"Task timeout after \x7bwait_time:.1f\x7ds in queue"`; the one-decimal
float formatting is abstracted to the exact value. -/
def timeoutMsg (wait_time : Int) : String :=
  "Task timeout after " ++ toString wait_time ++ "s in queue"

/-- Shallow embedding of `TaskManager.get_task_status`
(src/core/task_manager.py, lines 104-143).

Inputs: the settings, the current time `now` (`datetime.utcnow()`), the
task id, and the backend record read through `AsyncResult`. Output: the
returned `TaskStatus` together with the list of side effects performed
(revocation, timeout notification), or an error when the Python code
raises: `TaskState(result.state)` raises `ValueError` on a raw state
outside the enumeration, and `datetime.fromisoformat` raises when the
stored `submitted_at` value is not a timestamp. -/
def get_task_status (s : Settings) (now : Int) (task_id : String)
    (rec : BackendRecord) : Except String (TaskStatus × List Effect) :=
  match TaskState.ofString rec.state with
  | none => .error ("ValueError: " ++ rec.state ++ " is not a valid TaskState")
  | some st =>
    let status : TaskStatus :=
      { task_id := task_id
        state := st
        result := if celerySuccessful rec.state then some rec.info else none
        error := if celeryFailed rec.state then some (pyStr rec.info) else none }
    if rec.state = "PENDING" then
      match pyDictGet rec.info "submitted_at" with
      | some v =>
        match v with
        | .num submitted_at =>
          let wait_time := now - submitted_at
          if wait_time > s.task_queue_timeout then
            .ok ({ status with state := .TIMEOUT, error := some (timeoutMsg wait_time) },
                 [.revoke task_id true, .notifyTimeout task_id wait_time])
          else
            .ok (status, [])
        | _ => .error "TypeError: fromisoformat argument is not a timestamp"
      | none => .ok (status, [])
    else
      .ok (status, [])

/-- Number of timeout notifications among a list of effects. -/
def notifyCount (effs : List Effect) : Nat :=
  effs.countP fun e =>
    match e with
    | .notifyTimeout _ _ => true
    | _ => false

/-- Effects accumulated over `n` successive `get_task_status` calls on the
same task while the result store still returns the same record — the
window in which repeated or concurrent pollers all observe raw state
`PENDING` before the fired revocation is reflected by the store. A call
that raises contributes no effects. -/
def pollEffects (s : Settings) (now : Int) (task_id : String)
    (rec : BackendRecord) : Nat → List Effect
  | 0 => []
  | n + 1 =>
    (match get_task_status s now task_id rec with
     | .ok (_, effs) => effs
     | .error _ => []) ++ pollEffects s now task_id rec n

/-- Worker type enumeration from src/models/task.py (members IO, CPU, GPU,
lowercased here). -/
inductive WorkerType where
  | io
  | cpu
  | gpu
  deriving DecidableEq, Repr

/-- `SubTaskConfig` pydantic model from src/models/task.py. -/
structure SubTaskConfig where
  name : String
  worker_type : WorkerType
  queue : String
  args : List PyVal := []
  kwargs : List (String × PyVal) := []
  priority : Int := 5
  timeout : Option Int := none

/-- A Celery task signature as built by `submit_subtasks`:
`task_func.signature(args=..., kwargs=..., priority=..., queue=...,
time_limit=config.timeout)`. -/
structure Signature where
  name : String
  args : List PyVal
  kwargs : List (String × PyVal)
  priority : Int
  queue : String
  time_limit : Option Int

/-- The signature built from one `SubTaskConfig` inside the validation
loop of `submit_subtasks`. -/
def toSignature (config : SubTaskConfig) : Signature :=
  { name := config.name
    args := config.args
    kwargs := config.kwargs
    priority := config.priority
    queue := config.queue
    time_limit := config.timeout }

/-- Enqueue operations performed against the broker by `submit_subtasks`:
`group(tasks).apply_async()` or `chain(tasks).apply_async()`, paired with
the broker-assigned result ids. -/
inductive EnqueueEvent where
  | groupEnqueued (tasks : List Signature) (ids : List String)
  | chainEnqueued (tasks : List Signature) (id : String)

/-- The validation-and-signature loop of `submit_subtasks`
(src/core/task_manager.py, lines 73-87): configs are processed in order;
the first config whose name is not registered in `celery_app.tasks`
raises `ValueError(f"Task \x7bconfig.name\x7d not found")`, and no
signature list is produced. The registry is modelled as the list of
registered task names. -/
def buildSignatures (registry : List String) :
    List SubTaskConfig → Except String (List Signature)
  | [] => .ok []
  | config :: rest =>
    if config.name ∈ registry then
      match buildSignatures registry rest with
      | .ok sigs => .ok (toSignature config :: sigs)
      | .error e => .error e
    else
      .error ("Task " ++ config.name ++ " not found")

/-- Shallow embedding of `TaskManager.submit_subtasks`
(src/core/task_manager.py, lines 56-102).

`fresh` models the broker's id assignment: in parallel mode the group
result holds one `AsyncResult` per signature (`[r.id for r in
result.results]`, modelled positionally as `fresh 0, fresh 1, ...`); in
sequential mode `chain(tasks).apply_async()` yields the single terminal
`AsyncResult` (`[result.id]`, modelled as `fresh 0`).

Returns the call's outcome together with the list of enqueue operations
actually performed against the broker; a `ValueError` raised during
validation aborts the call before any enqueue, so the event list is then
empty. -/
def submit_subtasks (registry : List String) (fresh : Nat → String)
    (parent_task_id : String) (subtask_configs : List SubTaskConfig)
    (parallel : Bool) : Except String (List String) × List EnqueueEvent :=
  match buildSignatures registry subtask_configs with
  | .error e => (.error e, [])
  | .ok tasks =>
    if parallel then
      let subtask_ids := (List.range tasks.length).map fresh
      (.ok subtask_ids, [.groupEnqueued tasks subtask_ids])
    else
      (.ok [fresh 0], [.chainEnqueued tasks (fresh 0)])

/-- The terminal-state test in `wait_for_task`:
`status.state in [SUCCESS, FAILURE, TIMEOUT, REVOKED]`. -/
def isTerminal (s : TaskState) : Bool :=
  match s with
  | .SUCCESS => true
  | .FAILURE => true
  | .TIMEOUT => true
  | .REVOKED => true
  | _ => false

/-- The client-deadline test in `wait_for_task`:
`if timeout and (time.time() - start_time) > timeout`. Python truthiness
makes `None` and `0` skip the branch entirely. -/
def clientTimeoutHit (timeout : Option Int) (elapsed : Int) : Bool :=
  match timeout with
  | none => false
  | some t => t != 0 && elapsed > t

/-- Shallow embedding of `TaskManager.wait_for_task`
(src/core/task_manager.py, lines 145-184), a polling loop.

The environment is modelled as two streams: `polls n` is the `TaskStatus`
that the n-th `get_task_status` call returns, and `elapsed n` is the
value of `time.time() - start_time` observed right after that call. Each
iteration consumes the head of both streams. The loop has no bound in
the source; `fuel` bounds the iterations observed, and `none` means the
loop was still running when the fuel ran out. -/
def wait_for_task : Nat → (Nat → TaskStatus) → (Nat → Int) → Option Int →
    Option TaskStatus
  | 0, _, _, _ => none
  | fuel + 1, polls, elapsed, timeout =>
    if isTerminal (polls 0).state then
      some (polls 0)
    else if clientTimeoutHit timeout (elapsed 0) then
      some { polls 0 with state := .TIMEOUT, error := some "Client timeout" }
    else
      wait_for_task fuel (fun n => polls (n + 1)) (fun n => elapsed (n + 1)) timeout

/-- A file-system entry in the shared scratch store: a file with opaque
contents, or a directory with named children (arbitrarily nested). -/
inductive Entry where
  | file (data : List Nat)
  | dir (children : List (String × Entry))

/-- The scratch root (`settings.shared_tmp_path`): a map from task id to
that task's directory tree. -/
abbrev FS : Type := List (String × Entry)

/-- Lookup of a task's subtree under the scratch root. -/
def fsLookup (fs : FS) (task_id : String) : Option Entry :=
  List.lookup task_id fs

/-- `shutil.rmtree(path)` on the scratch root: drops the whole subtree
bound to the path, however deeply nested its contents. -/
def removeTree (fs : FS) (path : String) : FS :=
  fs.filter fun p => p.1 != path

/-- Shallow embedding of `get_task_dir` (src/utils/storage.py, lines 8-20):
`task_dir.mkdir(parents=True, exist_ok=True)` creates the directory when
absent and leaves it alone when present; the returned path is the task
id relative to the scratch root. -/
def get_task_dir (fs : FS) (task_id : String) : FS × String :=
  (if (fsLookup fs task_id).isSome then fs else fs ++ [(task_id, .dir [])],
   task_id)

/-- Shallow embedding of `cleanup_task_dir` (src/utils/storage.py, lines
37-45): `if task_dir.exists(): shutil.rmtree(task_dir)`. The boolean
`rmtreeFails` is an environment oracle for an OS-level failure of
`shutil.rmtree` (for example a permission error), which the Python
function does not catch. -/
def cleanup_task_dir (rmtreeFails : Bool) (fs : FS) (task_dir : String) :
    Except String FS :=
  if (fsLookup fs task_dir).isSome then
    if rmtreeFails then .error "rmtree failed" else .ok (removeTree fs task_dir)
  else
    .ok fs

/-- Shallow embedding of `TaskManager.cleanup_task`
(src/core/task_manager.py, lines 186-199): calls `get_task_dir` then
`cleanup_task_dir` inside `try/except Exception`, so an inner failure is
logged and swallowed, never re-raised. The `Except` result type
represents what the caller can observe: by the catch-all handler it is
always `.ok`; on a swallowed rmtree failure the store keeps the state the
inner calls left behind. -/
def cleanup_task (rmtreeFails : Bool) (fs : FS) (task_id : String) :
    Except String FS :=
  match cleanup_task_dir rmtreeFails (get_task_dir fs task_id).1
      (get_task_dir fs task_id).2 with
  | .ok fs2 => .ok fs2
  | .error _ => .ok (get_task_dir fs task_id).1

/-- `gpu_queue_map` from examples/image_super_resolution.py (lines 70-74). -/
def gpu_queue_map (s : Settings) : List (String × String) :=
  [("general", s.queue_gpu_general),
   ("portrait", s.queue_gpu_portrait),
   ("landscape", s.queue_gpu_landscape)]

/-- `gpu_task_map` from examples/image_super_resolution.py (lines 75-79). -/
def gpu_task_map : List (String × String) :=
  [("general", "gpu_inference_general"),
   ("portrait", "gpu_inference_portrait"),
   ("landscape", "gpu_inference_landscape")]

/-- Python `d.get(key, default)`. -/
def dictGetD (entries : List (String × String)) (key dflt : String) : String :=
  (entries.lookup key).getD dflt

/-- The category-based GPU routing step of the pipeline
(examples/image_super_resolution.py, lines 69-85):
`gpu_queue_map.get(category, settings.queue_gpu_general)` and
`gpu_task_map.get(category, "gpu_inference_general")`. Returns the
resolved (queue, capability) pair. -/
def route_for_category (s : Settings) (category : String) : String × String :=
  (dictGetD (gpu_queue_map s) category s.queue_gpu_general,
   dictGetD gpu_task_map category "gpu_inference_general")

/-- Fixture: a status polled as `PENDING`, for concrete witnesses. -/
def pendStatus : TaskStatus :=
  { task_id := "w", state := .PENDING }

/-- Fixture: a status polled as `SUCCESS` carrying its result payload. -/
def succStatus : TaskStatus :=
  { task_id := "w", state := .SUCCESS, result := some (.str "done") }

/-- Fixture: a minimal subtask configuration for concrete witnesses. -/
def sampleCfg (name : String) : SubTaskConfig :=
  { name := name, worker_type := .cpu, queue := "cpu" }

/-! ## Helper lemmas -/

/-- A filter keeping keys different from an absent key changes nothing. -/
theorem filter_ne_of_lookup_none (fs : FS) (task_id : String)
    (h : fsLookup fs task_id = none) :
    (fs.filter fun p => p.1 != task_id) = fs := by
  rw [List.filter_eq_self]
  intro p hp
  simp only [fsLookup, List.lookup_eq_none_iff] at h
  have hne := h p hp
  simp only [bne_iff_ne] at hne ⊢
  exact fun hc => hne hc.symm

/-- After `removeTree` the key has no binding left. -/
theorem fsLookup_removeTree (fs : FS) (task_id : String) :
    fsLookup (removeTree fs task_id) task_id = none := by
  simp only [fsLookup, removeTree, List.lookup_eq_none_iff]
  intro p hp
  have := (List.mem_filter.mp hp).2
  simp only [bne_iff_ne] at this ⊢
  exact fun hc => this hc.symm

/-- Appending a binding for a key makes its lookup succeed. -/
theorem fsLookup_append_self (fs : FS) (task_id : String) (e : Entry) :
    (fsLookup (fs ++ [(task_id, e)]) task_id).isSome = true := by
  simp only [fsLookup, List.lookup_append]
  cases h : List.lookup task_id fs <;> simp [Option.or]

/-- The path returned by `get_task_dir` is the task id. -/
theorem get_task_dir_snd (fs : FS) (task_id : String) :
    (get_task_dir fs task_id).2 = task_id := rfl

/-- The directory ensured by `get_task_dir` is present afterwards. -/
theorem fsLookup_get_task_dir_isSome (fs : FS) (task_id : String) :
    (fsLookup (get_task_dir fs task_id).1 task_id).isSome = true := by
  unfold get_task_dir
  by_cases h : (fsLookup fs task_id).isSome
  · simp [h]
  · simp only [h, Bool.false_eq_true, if_false]
    exact fsLookup_append_self fs task_id (.dir [])

/-- A successful cleanup removes the (ensured) task subtree. -/
theorem cleanup_task_ok_removeTree (fs : FS) (task_id : String) :
    cleanup_task false fs task_id =
      .ok (removeTree (get_task_dir fs task_id).1 task_id) := by
  have h := fsLookup_get_task_dir_isSome fs task_id
  unfold cleanup_task cleanup_task_dir
  rw [get_task_dir_snd]
  simp [h]

/-- Cleanup of an id with no scratch directory leaves the store unchanged
(the ensured-then-deleted empty directory cancels out). -/
theorem cleanup_task_of_absent (fs : FS) (task_id : String)
    (h : fsLookup fs task_id = none) :
    cleanup_task false fs task_id = .ok fs := by
  unfold cleanup_task cleanup_task_dir
  rw [get_task_dir_snd]
  unfold get_task_dir
  simp only [h, Option.isSome_none, Bool.false_eq_true, if_false]
  simp [fsLookup_append_self, removeTree, List.filter_append,
    filter_ne_of_lookup_none _ _ h]

end TaskMgr

namespace TaskMgr

/-! ## Claim theorems -/

/-- C2: whenever `get_task_status` reads raw state `PENDING`, the stored
envelope carries a `submitted_at` timestamp, and `now - submitted_at`
strictly exceeds `settings.task_queue_timeout`, the call returns state
`TIMEOUT` with an explanatory error message, issues a revoke/terminate
request against the queue for that task id, and fires a timeout
notification. -/
theorem c2_pending_timeout_reclassifies (s : Settings) (now : Int)
    (task_id : String) (info : PyVal) (t : Int)
    (hsub : pyDictGet info "submitted_at" = some (.num t))
    (hwait : now - t > s.task_queue_timeout) :
    get_task_status s now task_id ⟨"PENDING", info⟩ =
      .ok ({ task_id := task_id, state := .TIMEOUT,
             error := some (timeoutMsg (now - t)) },
           [.revoke task_id true, .notifyTimeout task_id (now - t)]) := by
  simp [get_task_status, TaskState.ofString, celerySuccessful, celeryFailed,
    hsub, hwait]

/-- Witness for C2: a concrete task pending for 31 seconds against the
default 30-second threshold. -/
theorem c2_pending_timeout_witness :
    (31 : Int) - 0 > defaultSettings.task_queue_timeout ∧
    get_task_status defaultSettings 31 "w2"
      ⟨"PENDING", .dict [("submitted_at", .num 0)]⟩ =
      .ok ({ task_id := "w2", state := .TIMEOUT,
             error := some (timeoutMsg (31 - 0)) },
           [.revoke "w2" true, .notifyTimeout "w2" (31 - 0)]) :=
  ⟨by decide,
   c2_pending_timeout_reclassifies defaultSettings 31 "w2"
     (.dict [("submitted_at", .num 0)]) 0 rfl (by decide)⟩

/-- C10: a raw state string outside the seven enumerated `TaskState`
values (for example the broker's `RETRY`) makes `get_task_status` raise
instead of returning a status: the decode at the store boundary is
partial. -/
theorem c10_unknown_raw_state_raises (s : Settings) (now : Int)
    (task_id raw : String) (info : PyVal)
    (h : TaskState.ofString raw = none) :
    get_task_status s now task_id ⟨raw, info⟩ =
      .error ("ValueError: " ++ raw ++ " is not a valid TaskState") := by
  simp [get_task_status, h]

/-- Witness for C10 at the concrete broker state `RETRY`. -/
theorem c10_unknown_raw_state_witness :
    TaskState.ofString "RETRY" = none ∧
    get_task_status defaultSettings 0 "w10" ⟨"RETRY", .none_⟩ =
      .error ("ValueError: " ++ "RETRY" ++ " is not a valid TaskState") :=
  ⟨by decide,
   c10_unknown_raw_state_raises defaultSettings 0 "w10" "RETRY" .none_
     (by decide)⟩

/-- C8: category-based GPU routing resolves any category outside
general/portrait/landscape to the configured default queue
`queue_gpu_general` and the default capability `gpu_inference_general`
instead of failing, and each known category resolves to its own queue
and capability, pairwise distinct under the default settings. -/
theorem c8_category_routing (s : Settings) (category : String)
    (h : category ≠ "general" ∧ category ≠ "portrait" ∧ category ≠ "landscape") :
    route_for_category s category = (s.queue_gpu_general, "gpu_inference_general") ∧
    route_for_category s "general" = (s.queue_gpu_general, "gpu_inference_general") ∧
    route_for_category s "portrait" = (s.queue_gpu_portrait, "gpu_inference_portrait") ∧
    route_for_category s "landscape" = (s.queue_gpu_landscape, "gpu_inference_landscape") ∧
    route_for_category defaultSettings "general" ≠
      route_for_category defaultSettings "portrait" ∧
    route_for_category defaultSettings "general" ≠
      route_for_category defaultSettings "landscape" ∧
    route_for_category defaultSettings "portrait" ≠
      route_for_category defaultSettings "landscape" := by
  obtain ⟨h1, h2, h3⟩ := h
  refine ⟨?_, by rfl, by rfl, by rfl, by decide, by decide, by decide⟩
  have e1 : (category == "general") = false := beq_eq_false_iff_ne.mpr h1
  have e2 : (category == "portrait") = false := beq_eq_false_iff_ne.mpr h2
  have e3 : (category == "landscape") = false := beq_eq_false_iff_ne.mpr h3
  simp [route_for_category, gpu_queue_map, gpu_task_map, dictGetD,
    List.lookup_cons, e1, e2, e3]

/-- Witness for C8 at the unknown category `panorama`. -/
theorem c8_category_routing_witness :
    route_for_category defaultSettings "panorama" =
      (defaultSettings.queue_gpu_general, "gpu_inference_general") :=
  (c8_category_routing defaultSettings "panorama"
    ⟨by decide, by decide, by decide⟩).1

/-- C7: `cleanup_task` removes the task's entire scratch subtree, however
nested; a second call on the same id (whose directory is then absent) is
a no-op that leaves the store unchanged and raises nothing; and for any
behaviour of the underlying recursive delete (including an OS-level
failure) the call never propagates an error to its caller. -/
theorem c7_cleanup_removes_and_is_idempotent (fs : FS) (task_id : String)
    (b : Bool) :
    (∃ fs2, cleanup_task false fs task_id = .ok fs2 ∧
       fsLookup fs2 task_id = none ∧
       cleanup_task false fs2 task_id = .ok fs2) ∧
    (∃ fs3, cleanup_task b fs task_id = .ok fs3) := by
  constructor
  · refine ⟨removeTree (get_task_dir fs task_id).1 task_id, ?_, ?_, ?_⟩
    · exact cleanup_task_ok_removeTree fs task_id
    · exact fsLookup_removeTree _ task_id
    · exact cleanup_task_of_absent _ task_id (fsLookup_removeTree _ task_id)
  · unfold cleanup_task
    split <;> exact ⟨_, rfl⟩

/-- C1: contrary to the claim, the code has no per-task one-time guard:
every `get_task_status` call that observes raw state `PENDING` past the
threshold fires a fresh timeout notification, so one poll records one
notification and two polls within the window record two. -/
theorem c1_notification_not_deduplicated :
    notifyCount (pollEffects defaultSettings 31 "t1"
      ⟨"PENDING", .dict [("submitted_at", .num 0)]⟩ 1) = 1 ∧
    notifyCount (pollEffects defaultSettings 31 "t1"
      ⟨"PENDING", .dict [("submitted_at", .num 0)]⟩ 2) = 2 :=
  ⟨rfl, rfl⟩

/-- The validation loop fails when any config name is unregistered. -/
theorem buildSignatures_error_of_unknown (registry : List String)
    (configs : List SubTaskConfig)
    (h : ∃ c ∈ configs, c.name ∉ registry) :
    ∃ e, buildSignatures registry configs = .error e := by
  induction configs with
  | nil => simp at h
  | cons c rest ih =>
    by_cases hc : c.name ∈ registry
    · rcases h with ⟨d, hd, hdn⟩
      rcases List.mem_cons.mp hd with rfl | hdr
      · exact absurd hc hdn
      · obtain ⟨e, he⟩ := ih ⟨d, hdr, hdn⟩
        exact ⟨e, by simp [buildSignatures, hc, he]⟩
    · exact ⟨"Task " ++ c.name ++ " not found", by simp [buildSignatures, hc]⟩

/-- The validation loop builds one signature per config, in order, when
every config name is registered. -/
theorem buildSignatures_ok_of_known (registry : List String)
    (configs : List SubTaskConfig)
    (h : ∀ c ∈ configs, c.name ∈ registry) :
    buildSignatures registry configs = .ok (configs.map toSignature) := by
  induction configs with
  | nil => rfl
  | cons c rest ih =>
    have hc := h c (List.mem_cons_self c rest)
    simp [buildSignatures, hc,
      ih (fun d hd => h d (List.mem_cons_of_mem c hd))]

/-- C3: if any subtask config's name does not resolve in the task
registry, the whole `submit_subtasks` call fails with the
unknown-capability `ValueError` and no enqueue operation at all is
performed against the broker, in either composition mode. -/
theorem c3_validation_before_enqueue (registry : List String)
    (fresh : Nat → String) (pid : String) (configs : List SubTaskConfig)
    (parallel : Bool) (h : ∃ c ∈ configs, c.name ∉ registry) :
    (∃ e, (submit_subtasks registry fresh pid configs parallel).1 = .error e) ∧
    (submit_subtasks registry fresh pid configs parallel).2 = [] := by
  obtain ⟨e, he⟩ := buildSignatures_error_of_unknown registry configs h
  exact ⟨⟨e, by simp [submit_subtasks, he]⟩, by simp [submit_subtasks, he]⟩

/-- Witness for C3: one config whose name is not registered. -/
theorem c3_validation_witness :
    (∃ e, (submit_subtasks ["registered"] (fun _ => "id0") "p"
       [sampleCfg "missing"] true).1 = .error e) ∧
    (submit_subtasks ["registered"] (fun _ => "id0") "p"
       [sampleCfg "missing"] true).2 = [] :=
  c3_validation_before_enqueue ["registered"] (fun _ => "id0") "p"
    [sampleCfg "missing"] true
    ⟨sampleCfg "missing", by simp, by decide⟩

/-- C4: with every config name registered, parallel mode returns exactly
one broker id per config (the group event pairs the configs, in order,
with those ids), and sequential (chain) mode returns exactly one id
regardless of the number of configs. -/
theorem c4_parallel_count_sequential_one (registry : List String)
    (fresh : Nat → String) (pid : String) (configs : List SubTaskConfig)
    (h : ∀ c ∈ configs, c.name ∈ registry) :
    (∃ ids, (submit_subtasks registry fresh pid configs true).1 = .ok ids ∧
       ids.length = configs.length ∧
       (submit_subtasks registry fresh pid configs true).2 =
         [.groupEnqueued (configs.map toSignature) ids]) ∧
    (submit_subtasks registry fresh pid configs false).1 = .ok [fresh 0] ∧
    (submit_subtasks registry fresh pid configs false).2 =
      [.chainEnqueued (configs.map toSignature) (fresh 0)] := by
  have hb := buildSignatures_ok_of_known registry configs h
  refine ⟨⟨(List.range (configs.map toSignature).length).map fresh,
    ?_, ?_, ?_⟩, ?_, ?_⟩ <;> simp [submit_subtasks, hb]

/-- Witness for C4: two registered configs give two ids in parallel mode
and one id in chain mode. -/
theorem c4_parallel_sequential_witness :
    (∃ ids, (submit_subtasks ["a", "b"] (fun _ => "id0") "p"
       [sampleCfg "a", sampleCfg "b"] true).1 = .ok ids ∧
       ids.length = [sampleCfg "a", sampleCfg "b"].length ∧
       (submit_subtasks ["a", "b"] (fun _ => "id0") "p"
         [sampleCfg "a", sampleCfg "b"] true).2 =
         [.groupEnqueued ([sampleCfg "a", sampleCfg "b"].map toSignature) ids]) ∧
    (submit_subtasks ["a", "b"] (fun _ => "id0") "p"
       [sampleCfg "a", sampleCfg "b"] false).1 = .ok ["id0"] ∧
    (submit_subtasks ["a", "b"] (fun _ => "id0") "p"
       [sampleCfg "a", sampleCfg "b"] false).2 =
      [.chainEnqueued ([sampleCfg "a", sampleCfg "b"].map toSignature) "id0"] :=
  c4_parallel_count_sequential_one ["a", "b"] (fun _ => "id0") "p"
    [sampleCfg "a", sampleCfg "b"] (by decide)

/-- The decode ties the raw string to the decoded state for the two
states that drive result/error population. -/
theorem ofString_success_failure (raw : String) (st : TaskState)
    (h : TaskState.ofString raw = some st) :
    (raw = "SUCCESS" ↔ st = .SUCCESS) ∧ (raw = "FAILURE" ↔ st = .FAILURE) := by
  unfold TaskState.ofString at h
  split_ifs at h <;> simp_all <;> (subst h; decide)

/-- C5 counterexample: a task whose raw state is `REVOKED` (terminal
revoked) is passed through with `error = none`, whereas the claim
requires `error` to be populated for revoked states. -/
theorem c5_revoked_error_absent :
    ∃ status, get_task_status defaultSettings 0 "t5" ⟨"REVOKED", .none_⟩ =
        .ok (status, []) ∧ status.state = .REVOKED ∧ status.error = none :=
  ⟨_, rfl, rfl, rfl⟩

/-- C5 (amended): a non-`PENDING` raw state is passed through unchanged;
`result` is populated exactly when the state is `SUCCESS`, and `error`
exactly when the state is `FAILURE` — not for `TIMEOUT` or `REVOKED`,
because Celery's `failed()` only covers `FAILURE`. -/
theorem c5_non_pending_passthrough (s : Settings) (now : Int)
    (task_id : String) (rec : BackendRecord) (st : TaskState)
    (hdec : TaskState.ofString rec.state = some st)
    (hnp : rec.state ≠ "PENDING") :
    ∃ status, get_task_status s now task_id rec = .ok (status, []) ∧
      status.state = st ∧
      (status.result.isSome ↔ st = .SUCCESS) ∧
      (status.error.isSome ↔ st = .FAILURE) := by
  have hS := (ofString_success_failure rec.state st hdec).1
  have hF := (ofString_success_failure rec.state st hdec).2
  unfold get_task_status
  simp only [hdec]
  rw [if_neg hnp]
  refine ⟨_, rfl, rfl, ?_, ?_⟩
  · by_cases hs : rec.state = "SUCCESS"
    · simp [celerySuccessful, hs, hS.mp hs]
    · have hb : celerySuccessful rec.state = false := by
        simp [celerySuccessful, hs]
      simp [hb]
      exact fun hst => hs (hS.mpr hst)
  · by_cases hf : rec.state = "FAILURE"
    · simp [celeryFailed, hf, hF.mp hf]
    · have hb : celeryFailed rec.state = false := by
        simp [celeryFailed, hf]
      simp [hb]
      exact fun hst => hf (hF.mpr hst)

/-- Any status returned by the polling loop has a terminal state: either
it was polled terminal, or it was forcibly reclassified to `TIMEOUT`. -/
theorem wait_for_task_terminal :
    forall (fuel : Nat) (polls : Nat -> TaskStatus) (elapsed : Nat -> Int)
      (timeout : Option Int) (st : TaskStatus),
      wait_for_task fuel polls elapsed timeout = some st ->
      isTerminal st.state = true := by
  intro fuel
  induction fuel with
  | zero => intro polls elapsed timeout st h; simp [wait_for_task] at h
  | succ n ih =>
    intro polls elapsed timeout st h
    rw [wait_for_task] at h
    by_cases h1 : isTerminal (polls 0).state = true
    · rw [if_pos h1] at h
      cases h
      exact h1
    · rw [if_neg h1] at h
      by_cases h2 : clientTimeoutHit timeout (elapsed 0) = true
      · rw [if_pos h2] at h
        cases h
        rfl
      · rw [if_neg h2] at h
        exact ih _ _ _ _ h

/-- When the deadline is live and strikes at step `k` before any terminal
poll, the loop returns the `k`-th status forced to `TIMEOUT` with the
client-timeout error. -/
theorem wait_for_task_client_timeout (t : Int) (ht : 0 < t) :
    forall (k fuel : Nat) (polls : Nat -> TaskStatus) (elapsed : Nat -> Int),
      (forall j, j <= k -> isTerminal (polls j).state = false) ->
      (forall j, j < k -> ¬ elapsed j > t) ->
      elapsed k > t -> k < fuel ->
      wait_for_task fuel polls elapsed (some t) =
        some { polls k with state := .TIMEOUT, error := some "Client timeout" } := by
  intro k
  induction k with
  | zero =>
    intro fuel polls elapsed hterm _ hk hfuel
    obtain ⟨f, rfl⟩ : ∃ f, fuel = f + 1 := ⟨fuel - 1, by omega⟩
    rw [wait_for_task, if_neg (by simp [hterm 0 (Nat.le_refl 0)]),
      if_pos (by simp [clientTimeoutHit, hk]; omega)]
  | succ k ih =>
    intro fuel polls elapsed hterm helap hk hfuel
    obtain ⟨f, rfl⟩ : ∃ f, fuel = f + 1 := ⟨fuel - 1, by omega⟩
    rw [wait_for_task, if_neg (by simp [hterm 0 (by omega)]),
      if_neg (by simp [clientTimeoutHit]; intro _; exact Int.not_lt.mp (helap 0 (by omega)))]
    exact ih f (fun n => polls (n + 1)) (fun n => elapsed (n + 1))
      (fun j hj => hterm (j + 1) (by omega)) (fun j hj => helap (j + 1) (by omega))
      hk (by omega)

/-- When the first terminal poll arrives at step `k` before the deadline
ever strikes, the loop returns exactly that polled status. -/
theorem wait_for_task_first_terminal :
    forall (timeout : Option Int) (k fuel : Nat) (polls : Nat -> TaskStatus)
      (elapsed : Nat -> Int),
      (forall j, j < k -> isTerminal (polls j).state = false ∧
         clientTimeoutHit timeout (elapsed j) = false) ->
      isTerminal (polls k).state = true -> k < fuel ->
      wait_for_task fuel polls elapsed timeout = some (polls k) := by
  intro timeout k
  induction k with
  | zero =>
    intro fuel polls elapsed _ hterm hfuel
    obtain ⟨f, rfl⟩ : ∃ f, fuel = f + 1 := ⟨fuel - 1, by omega⟩
    rw [wait_for_task, if_pos hterm]
  | succ k ih =>
    intro fuel polls elapsed hbefore hterm hfuel
    obtain ⟨f, rfl⟩ : ∃ f, fuel = f + 1 := ⟨fuel - 1, by omega⟩
    rw [wait_for_task, if_neg (by simp [(hbefore 0 (by omega)).1]),
      if_neg (by simp [(hbefore 0 (by omega)).2])]
    exact ih f (fun n => polls (n + 1)) (fun n => elapsed (n + 1))
      (fun j hj => hbefore (j + 1) (by omega)) hterm (by omega)

/-- A `None` or `0` caller timeout makes the deadline test always false
(Python truthiness of `if timeout and ...`). -/
theorem clientTimeoutHit_disabled (timeout : Option Int)
    (h : timeout = none ∨ timeout = some 0) (e : Int) :
    clientTimeoutHit timeout e = false := by
  rcases h with rfl | rfl <;> simp [clientTimeoutHit]

/-- With the deadline test disabled, any returned status is one of the
polled statuses, and it is terminal. -/
theorem wait_for_task_disabled_returns_poll (timeout : Option Int)
    (hdis : forall e, clientTimeoutHit timeout e = false) :
    forall (fuel : Nat) (polls : Nat -> TaskStatus) (elapsed : Nat -> Int)
      (st : TaskStatus),
      wait_for_task fuel polls elapsed timeout = some st ->
      ∃ k, polls k = st ∧ isTerminal st.state = true := by
  intro fuel
  induction fuel with
  | zero => intro polls elapsed st h; simp [wait_for_task] at h
  | succ n ih =>
    intro polls elapsed st h
    rw [wait_for_task] at h
    by_cases h1 : isTerminal (polls 0).state = true
    · rw [if_pos h1] at h
      cases h
      exact ⟨0, rfl, h1⟩
    · rw [if_neg h1, if_neg (by simp [hdis (elapsed 0)])] at h
      obtain ⟨k, hk, hkt⟩ := ih _ _ _ h
      exact ⟨k + 1, hk, hkt⟩

/-- With the deadline test disabled, the loop never returns while no poll
is terminal: no amount of fuel produces a result. -/
theorem wait_for_task_disabled_diverges (timeout : Option Int)
    (hdis : forall e, clientTimeoutHit timeout e = false) :
    forall (fuel : Nat) (polls : Nat -> TaskStatus) (elapsed : Nat -> Int),
      (forall k, isTerminal (polls k).state = false) ->
      wait_for_task fuel polls elapsed timeout = none := by
  intro fuel
  induction fuel with
  | zero => intro polls elapsed _; rfl
  | succ n ih =>
    intro polls elapsed hterm
    rw [wait_for_task, if_neg (by simp [hterm 0]),
      if_neg (by simp [hdis (elapsed 0)])]
    exact ih _ _ (fun k => hterm (k + 1))

/-- C6 (amended): with a positive caller timeout, every status the loop
returns is terminal (no `PENDING`, `RECEIVED` or `STARTED` escapes); if
the deadline strikes at step `k` before any terminal poll the result is
the last polled status forced to `TIMEOUT` with error `"Client timeout"`
(capital C, as in the source); and the first terminal poll, when it comes
before the deadline, is returned immediately and unchanged. -/
theorem c6_wait_terminal_or_forced_timeout (polls : Nat -> TaskStatus)
    (elapsed : Nat -> Int) (t : Int) (fuel k : Nat) (ht : 0 < t) :
    (forall st, wait_for_task fuel polls elapsed (some t) = some st ->
       isTerminal st.state = true) ∧
    ((forall j, j <= k -> isTerminal (polls j).state = false) ->
     (forall j, j < k -> ¬ elapsed j > t) ->
     elapsed k > t -> k < fuel ->
     wait_for_task fuel polls elapsed (some t) =
       some { polls k with state := .TIMEOUT, error := some "Client timeout" }) ∧
    ((forall j, j < k -> isTerminal (polls j).state = false ∧ ¬ elapsed j > t) ->
     isTerminal (polls k).state = true -> k < fuel ->
     wait_for_task fuel polls elapsed (some t) = some (polls k)) := by
  refine ⟨fun st => wait_for_task_terminal fuel polls elapsed (some t) st,
    wait_for_task_client_timeout t ht k fuel polls elapsed, ?_⟩
  intro hbefore hterm hfuel
  refine wait_for_task_first_terminal (some t) k fuel polls elapsed ?_ hterm hfuel
  intro j hj
  refine ⟨(hbefore j hj).1, ?_⟩
  simp [clientTimeoutHit]
  intro _
  exact Int.not_lt.mp (hbefore j hj).2

/-- Witness for C6: a task that never leaves `PENDING`, polled once with a
1-second deadline already exceeded, comes back forced to `TIMEOUT` with
the client-timeout error. -/
theorem c6_wait_witness :
    wait_for_task 1 (fun _ => pendStatus) (fun _ => 2) (some 1) =
      some { pendStatus with state := .TIMEOUT, error := some "Client timeout" } :=
  (c6_wait_terminal_or_forced_timeout (fun _ => pendStatus) (fun _ => 2) 1 1 0
    (by decide)).2.1
    (fun j _ => rfl) (fun j hj => absurd hj (Nat.not_lt_zero j))
    (by decide) (by decide)

/-- C6 counterexample: the forced error string is `"Client timeout"` with
a capital C, not the `"client timeout"` the claim states. -/
theorem c6_error_capitalisation :
    ∃ st, wait_for_task 1 (fun _ => pendStatus) (fun _ => 2) (some 1) = some st ∧
      st.state = .TIMEOUT ∧ st.error = some "Client timeout" ∧
      st.error ≠ some "client timeout" :=
  ⟨_, rfl, rfl, rfl, by decide⟩

/-- C9: a `None` or `0` caller timeout disables the client deadline: the
loop only ever returns a polled terminal status, and if no poll is ever
terminal it never returns at all. -/
theorem c9_zero_timeout_disables_deadline (polls : Nat -> TaskStatus)
    (elapsed : Nat -> Int) (timeout : Option Int)
    (h : timeout = none ∨ timeout = some 0) :
    (forall fuel st, wait_for_task fuel polls elapsed timeout = some st ->
       ∃ k, polls k = st ∧ isTerminal st.state = true) ∧
    ((forall k, isTerminal (polls k).state = false) ->
       forall fuel, wait_for_task fuel polls elapsed timeout = none) := by
  have hdis := clientTimeoutHit_disabled timeout h
  exact ⟨fun fuel st hw =>
      wait_for_task_disabled_returns_poll timeout hdis fuel polls elapsed st hw,
    fun hterm fuel =>
      wait_for_task_disabled_diverges timeout hdis fuel polls elapsed hterm⟩

/-- Witness for C9: with `timeout = None` and huge elapsed times, the loop
still runs to the first terminal poll and returns it. -/
theorem c9_zero_timeout_witness :
    ∃ k, (fun n => if n = 0 then pendStatus else succStatus) k = succStatus ∧
      isTerminal succStatus.state = true :=
  (c9_zero_timeout_disables_deadline
      (fun n => if n = 0 then pendStatus else succStatus)
      (fun _ => 1000000) none (Or.inl rfl)).1 2 succStatus rfl

/-- Witness for C5 (amended) at a concrete successful task. -/
theorem c5_non_pending_witness :
    ∃ status, get_task_status defaultSettings 0 "w5" ⟨"SUCCESS", .str "ok"⟩ =
        .ok (status, []) ∧
      status.state = TaskState.SUCCESS ∧
      (status.result.isSome ↔ TaskState.SUCCESS = .SUCCESS) ∧
      (status.error.isSome ↔ TaskState.SUCCESS = .FAILURE) :=
  c5_non_pending_passthrough defaultSettings 0 "w5" ⟨"SUCCESS", .str "ok"⟩
    .SUCCESS (by decide) (by decide)

end TaskMgr
